import Mathlib

/-! Shallow embedding of the invoice totals computation and the invoice-number
allocation of a small invoicing application (the client invoice form and the
server storage layer). Monetary values, held as JavaScript numbers and decimal
strings in the source, are modelled as rationals; the JavaScript
`toString`/`parseFloat` round trip between the per-item computation and the
aggregate folds is exact for doubles and is modelled as the identity. -/

/-- A raw line item as submitted to the invoice form, with the numeric fields
of `invoiceItemSchema` (invoice-form.tsx lines 20-26). -/
structure LineItemInput where
  description : String
  quantity : ℚ
  rate : ℚ
  taxRate : ℚ
  discountRate : ℚ
  deriving DecidableEq, Repr

/-- A line item after the per-item totals computation: the input fields plus
the derived `amount` (the object literal built inside the `items.map` of the
create and update mutations). -/
structure CalculatedItem where
  description : String
  quantity : ℚ
  rate : ℚ
  taxRate : ℚ
  discountRate : ℚ
  amount : ℚ
  deriving DecidableEq, Repr

/-- Per-item computation of the create path (`createInvoiceMutation`,
invoice-form.tsx lines 122-137). -/
def createCalculatedItem (item : LineItemInput) : CalculatedItem :=
  let lineSubtotal := item.quantity * item.rate
  let discount := lineSubtotal * item.discountRate / 100
  let subtotalAfterDiscount := lineSubtotal - discount
  let tax := subtotalAfterDiscount * item.taxRate / 100
  let amount := subtotalAfterDiscount + tax
  { description := item.description
    quantity := item.quantity
    rate := item.rate
    taxRate := item.taxRate
    discountRate := item.discountRate
    amount := amount }

/-- The `subtotal` reduce of the create path (invoice-form.tsx lines 139-142). -/
def createSubtotal (calculatedItems : List CalculatedItem) : ℚ :=
  calculatedItems.foldl (fun sum item =>
    let lineSubtotal := item.quantity * item.rate
    sum + lineSubtotal) 0

/-- The `totalDiscount` reduce of the create path (invoice-form.tsx lines 144-148). -/
def createTotalDiscount (calculatedItems : List CalculatedItem) : ℚ :=
  calculatedItems.foldl (fun sum item =>
    let lineSubtotal := item.quantity * item.rate
    let discount := lineSubtotal * item.discountRate / 100
    sum + discount) 0

/-- The `totalTax` reduce of the create path (invoice-form.tsx lines 150-156). -/
def createTotalTax (calculatedItems : List CalculatedItem) : ℚ :=
  calculatedItems.foldl (fun sum item =>
    let lineSubtotal := item.quantity * item.rate
    let discount := lineSubtotal * item.discountRate / 100
    let subtotalAfterDiscount := lineSubtotal - discount
    let tax := subtotalAfterDiscount * item.taxRate / 100
    sum + tax) 0

/-- The totals block sent in an invoice payload: the calculated items together
with the aggregate `subtotal`, `discountAmount`, `taxAmount` and `total`. -/
structure InvoiceTotals where
  items : List CalculatedItem
  subtotal : ℚ
  discountAmount : ℚ
  taxAmount : ℚ
  total : ℚ
  deriving DecidableEq, Repr

/-- The whole totals computation of the create path (`createInvoiceMutation`,
invoice-form.tsx lines 122-167): per-item map, the three reduces, and
`total = subtotal - totalDiscount + totalTax`. -/
def createInvoiceTotals (items : List LineItemInput) : InvoiceTotals :=
  let calculatedItems := items.map createCalculatedItem
  let subtotal := createSubtotal calculatedItems
  let totalDiscount := createTotalDiscount calculatedItems
  let totalTax := createTotalTax calculatedItems
  let total := subtotal - totalDiscount + totalTax
  { items := calculatedItems
    subtotal := subtotal
    discountAmount := totalDiscount
    taxAmount := totalTax
    total := total }

/-- Per-item computation of the update path (`updateInvoiceMutation`,
invoice-form.tsx lines 201-216); a separate transcription of the duplicated
code. -/
def updateCalculatedItem (item : LineItemInput) : CalculatedItem :=
  let lineSubtotal := item.quantity * item.rate
  let discount := lineSubtotal * item.discountRate / 100
  let subtotalAfterDiscount := lineSubtotal - discount
  let tax := subtotalAfterDiscount * item.taxRate / 100
  let amount := subtotalAfterDiscount + tax
  { description := item.description
    quantity := item.quantity
    rate := item.rate
    taxRate := item.taxRate
    discountRate := item.discountRate
    amount := amount }

/-- The `subtotal` reduce of the update path (invoice-form.tsx lines 218-221). -/
def updateSubtotal (calculatedItems : List CalculatedItem) : ℚ :=
  calculatedItems.foldl (fun sum item =>
    let lineSubtotal := item.quantity * item.rate
    sum + lineSubtotal) 0

/-- The `totalDiscount` reduce of the update path (invoice-form.tsx lines 223-227). -/
def updateTotalDiscount (calculatedItems : List CalculatedItem) : ℚ :=
  calculatedItems.foldl (fun sum item =>
    let lineSubtotal := item.quantity * item.rate
    let discount := lineSubtotal * item.discountRate / 100
    sum + discount) 0

/-- The `totalTax` reduce of the update path (invoice-form.tsx lines 229-235). -/
def updateTotalTax (calculatedItems : List CalculatedItem) : ℚ :=
  calculatedItems.foldl (fun sum item =>
    let lineSubtotal := item.quantity * item.rate
    let discount := lineSubtotal * item.discountRate / 100
    let subtotalAfterDiscount := lineSubtotal - discount
    let tax := subtotalAfterDiscount * item.taxRate / 100
    sum + tax) 0

/-- The whole totals computation of the update path (`updateInvoiceMutation`,
invoice-form.tsx lines 201-246). -/
def updateInvoiceTotals (items : List LineItemInput) : InvoiceTotals :=
  let calculatedItems := items.map updateCalculatedItem
  let subtotal := updateSubtotal calculatedItems
  let totalDiscount := updateTotalDiscount calculatedItems
  let totalTax := updateTotalTax calculatedItems
  let total := subtotal - totalDiscount + totalTax
  { items := calculatedItems
    subtotal := subtotal
    discountAmount := totalDiscount
    taxAmount := totalTax
    total := total }

/-- A preview line item (`handlePreview`, invoice-form.tsx lines 302-319): the
calculated fields plus the fixed `invoiceId := "preview"`. The temporary
`id := Math.random().toString()` is a nondeterministic placeholder the claims
do not mention and is left out of the model. -/
structure PreviewItem where
  invoiceId : String
  description : String
  quantity : ℚ
  rate : ℚ
  taxRate : ℚ
  discountRate : ℚ
  amount : ℚ
  deriving DecidableEq, Repr

/-- Per-item computation of the preview path (invoice-form.tsx lines 302-319). -/
def previewCalculatedItem (item : LineItemInput) : PreviewItem :=
  let lineSubtotal := item.quantity * item.rate
  let discount := lineSubtotal * item.discountRate / 100
  let subtotalAfterDiscount := lineSubtotal - discount
  let tax := subtotalAfterDiscount * item.taxRate / 100
  let amount := subtotalAfterDiscount + tax
  { invoiceId := "preview"
    description := item.description
    quantity := item.quantity
    rate := item.rate
    taxRate := item.taxRate
    discountRate := item.discountRate
    amount := amount }

/-- The `subtotal` reduce of the preview path (invoice-form.tsx lines 321-324). -/
def previewSubtotal (calculatedItems : List PreviewItem) : ℚ :=
  calculatedItems.foldl (fun sum item =>
    let lineSubtotal := item.quantity * item.rate
    sum + lineSubtotal) 0

/-- The `totalDiscount` reduce of the preview path (invoice-form.tsx lines 326-330). -/
def previewTotalDiscount (calculatedItems : List PreviewItem) : ℚ :=
  calculatedItems.foldl (fun sum item =>
    let lineSubtotal := item.quantity * item.rate
    let discount := lineSubtotal * item.discountRate / 100
    sum + discount) 0

/-- The `totalTax` reduce of the preview path (invoice-form.tsx lines 332-338). -/
def previewTotalTax (calculatedItems : List PreviewItem) : ℚ :=
  calculatedItems.foldl (fun sum item =>
    let lineSubtotal := item.quantity * item.rate
    let discount := lineSubtotal * item.discountRate / 100
    let subtotalAfterDiscount := lineSubtotal - discount
    let tax := subtotalAfterDiscount * item.taxRate / 100
    sum + tax) 0

/-- The totals block of the preview path. -/
structure PreviewTotals where
  items : List PreviewItem
  subtotal : ℚ
  discountAmount : ℚ
  taxAmount : ℚ
  total : ℚ
  deriving DecidableEq, Repr

/-- The zod `invoiceItemSchema` acceptance condition (invoice-form.tsx lines
20-26): nonempty description (`min(1)`), quantity at least 0.01 (`min(0.01)`),
nonnegative rate (`min(0)`), and tax and discount rates within [0, 100]
(`min(0).max(100)`). -/
def invoiceItemSchemaAccepts (i : LineItemInput) : Prop :=
  i.description ≠ "" ∧ 1 / 100 ≤ i.quantity ∧ 0 ≤ i.rate ∧
    0 ≤ i.taxRate ∧ i.taxRate ≤ 100 ∧ 0 ≤ i.discountRate ∧ i.discountRate ≤ 100

instance (i : LineItemInput) : Decidable (invoiceItemSchemaAccepts i) := by
  unfold invoiceItemSchemaAccepts
  infer_instance

/-- A stored invoice row (the fields of the shared `invoices` schema used by
the form and by storage). Monetary columns are decimal strings at rest,
modelled as rationals. -/
structure Invoice where
  id : String
  invoiceNumber : String
  clientId : String
  date : String
  dueDate : String
  status : String
  currency : String
  subtotal : ℚ
  taxAmount : ℚ
  discountAmount : ℚ
  total : ℚ
  notes : Option String
  createdAt : String
  deriving DecidableEq, Repr

/-- The `invoicePayload` built by the update mutation (invoice-form.tsx lines
239-247): the form fields other than `items`, plus the recomputed totals. It
carries no `invoiceNumber` field. -/
structure UpdateInvoicePayload where
  clientId : String
  date : String
  dueDate : String
  status : String
  currency : String
  notes : Option String
  subtotal : ℚ
  taxAmount : ℚ
  discountAmount : ℚ
  total : ℚ
  deriving DecidableEq, Repr

/-- Effect of `updateInvoice` on the stored invoice row (storage.ts lines
205-213): `db.update(invoices).set(updateInvoice)` writes exactly the columns
present in its argument and leaves every other column unchanged. -/
def applyUpdateInvoice (inv : Invoice) (updateInvoice : UpdateInvoicePayload) : Invoice :=
  { inv with
    clientId := updateInvoice.clientId
    date := updateInvoice.date
    dueDate := updateInvoice.dueDate
    status := updateInvoice.status
    currency := updateInvoice.currency
    notes := updateInvoice.notes
    subtotal := updateInvoice.subtotal
    taxAmount := updateInvoice.taxAmount
    discountAmount := updateInvoice.discountAmount
    total := updateInvoice.total }

/-- JavaScript `||` on an optional string read from settings: the default is
used when the setting is absent or the empty string (both falsy). -/
def jsOrDefault (v : Option String) (dflt : String) : String :=
  match v with
  | none => dflt
  | some s => if s = "" then dflt else s

/-- JavaScript `String.prototype.replace` with a string pattern and empty
replacement, on character lists: remove the first occurrence of `pat`; a
string without an occurrence is returned unchanged. -/
def replaceFirstList (pat : List Char) : List Char → List Char
  | [] => []
  | c :: rest =>
    if (c :: rest).take pat.length = pat then (c :: rest).drop pat.length
    else c :: replaceFirstList pat rest

/-- `s.replace(pat, '')` of JavaScript for a string pattern (first occurrence
only). -/
def jsReplaceFirst (s pat : String) : String :=
  ⟨replaceFirstList pat.data s.data⟩

/-- Value of a list of decimal digit characters, most significant first (the
number `parseInt` computes from an all-digit prefix). -/
def digitsVal (cs : List Char) : Nat :=
  cs.foldl (fun acc c => acc * 10 + (c.toNat - 48)) 0

/-- Model of JavaScript `parseInt` in base 10 on the strings that arise here:
the longest leading run of decimal digits is parsed; `none` models `NaN` when
there is no leading digit. (Full `parseInt` would also skip leading whitespace
and accept a sign; stripped invoice-number suffixes contain neither.) -/
def jsParseInt (s : String) : Option Nat :=
  let ds := s.data.takeWhile Char.isDigit
  if ds.isEmpty then none else some (digitsVal ds)

/-- JavaScript `String.prototype.padStart`: left-pad with `c` up to length
`len`; a string already at least that long is returned unchanged. -/
def padStart (s : String) (len : Nat) (c : Char) : String :=
  if len ≤ s.length then s else ⟨List.replicate (len - s.length) c ++ s.data⟩

/-- `getNextInvoiceNumber` (storage.ts lines 238-252) as a function of its two
database reads: the `invoice_prefix` setting (`none` when absent) and the
invoice number of the most recently created invoice (`none` when no invoice
exists). The JavaScript `(parseInt(...) + 1).toString()` on the `NaN` branch
stringifies to `"NaN"`. -/
def getNextInvoiceNumber (invoicePrefixSetting : Option String)
    (lastInvoiceNumber : Option String) : String :=
  let pfx := jsOrDefault invoicePrefixSetting "INV-"
  match lastInvoiceNumber with
  | none => pfx ++ "0001"
  | some n =>
    let lastNumber := jsReplaceFirst n pfx
    let nextNumber :=
      match jsParseInt lastNumber with
      | none => padStart "NaN" 4 '0'
      | some v => padStart (Nat.repr (v + 1)) 4 '0'
    pfx ++ nextNumber

/-- The whole totals computation of the preview path (`handlePreview`,
invoice-form.tsx lines 302-353). -/
def previewInvoiceTotals (items : List LineItemInput) : PreviewTotals :=
  let calculatedItems := items.map previewCalculatedItem
  let subtotal := previewSubtotal calculatedItems
  let totalDiscount := previewTotalDiscount calculatedItems
  let totalTax := previewTotalTax calculatedItems
  let total := subtotal - totalDiscount + totalTax
  { items := calculatedItems
    subtotal := subtotal
    discountAmount := totalDiscount
    taxAmount := totalTax
    total := total }

/-! Helper lemmas shared by the claim theorems. -/

/-- Folding `+ f x` over a list starting from `a` is `a` plus the sum of the
mapped list. -/
theorem foldl_add_eq_sum {α : Type} (f : α → ℚ) :
    ∀ (l : List α) (a : ℚ), l.foldl (fun s x => s + f x) a = a + (l.map f).sum
  | [], a => by simp
  | x :: l, a => by
    simp [List.foldl_cons, foldl_add_eq_sum f l, add_assoc]

/-- Removing the first occurrence of `pat` from `pat ++ l` leaves `l`. -/
theorem replaceFirstList_cancel (pat l : List Char) :
    replaceFirstList pat (pat ++ l) = l := by
  cases hp : pat ++ l with
  | nil =>
    have : pat = [] ∧ l = [] := List.append_eq_nil.mp hp
    simp [replaceFirstList, this.2]
  | cons c rest =>
    rw [replaceFirstList]
    rw [← hp, List.take_left, List.drop_left, if_pos rfl]

/-! Claim theorems. -/

/-- Claim C1: for every line item with quantity q, rate r, discount rate d and
tax rate t, the computed amount equals
(q*r) - (q*r*d/100) + ((q*r - q*r*d/100) * t/100), derived in order as
lineSubtotal, discount, afterDiscount, tax, amount; this holds for the
per-item computation of both the create and the update path. -/
theorem lineAmountFormula (item : LineItemInput) :
    (createCalculatedItem item).amount =
      item.quantity * item.rate - item.quantity * item.rate * item.discountRate / 100 +
        (item.quantity * item.rate - item.quantity * item.rate * item.discountRate / 100) *
          item.taxRate / 100 ∧
    (updateCalculatedItem item).amount =
      item.quantity * item.rate - item.quantity * item.rate * item.discountRate / 100 +
        (item.quantity * item.rate - item.quantity * item.rate * item.discountRate / 100) *
          item.taxRate / 100 :=
  ⟨rfl, rfl⟩

/-- Claim C2: for every list of line items, the create-path totals computation
produces subtotal equal to the sum of quantity*rate over all items,
discountAmount equal to the sum of per-line discounts, taxAmount equal to the
sum of per-line taxes, and total equal to subtotal - discountAmount +
taxAmount exactly. -/
theorem aggregateTotalsFormula (items : List LineItemInput) :
    (createInvoiceTotals items).subtotal =
      (items.map (fun i => i.quantity * i.rate)).sum ∧
    (createInvoiceTotals items).discountAmount =
      (items.map (fun i => i.quantity * i.rate * i.discountRate / 100)).sum ∧
    (createInvoiceTotals items).taxAmount =
      (items.map (fun i =>
        (i.quantity * i.rate - i.quantity * i.rate * i.discountRate / 100) *
          i.taxRate / 100)).sum ∧
    (createInvoiceTotals items).total =
      (createInvoiceTotals items).subtotal - (createInvoiceTotals items).discountAmount +
        (createInvoiceTotals items).taxAmount := by
  refine ⟨?_, ?_, ?_, rfl⟩
  · simp only [createInvoiceTotals, createSubtotal, foldl_add_eq_sum, List.map_map,
      zero_add]
    rfl
  · simp only [createInvoiceTotals, createTotalDiscount, foldl_add_eq_sum, List.map_map,
      zero_add]
    rfl
  · simp only [createInvoiceTotals, createTotalTax, foldl_add_eq_sum, List.map_map,
      zero_add]
    rfl

/-- Claim C3: the three duplicated totals computations — the create path, the
update path, and the preview path — produce identical per-item amounts and
identical subtotal, discountAmount, taxAmount and total on every list of
line-item inputs. -/
theorem createUpdatePreviewAgree (items : List LineItemInput) :
    createInvoiceTotals items = updateInvoiceTotals items ∧
    (createInvoiceTotals items).items.map CalculatedItem.amount =
      (previewInvoiceTotals items).items.map PreviewItem.amount ∧
    (createInvoiceTotals items).subtotal = (previewInvoiceTotals items).subtotal ∧
    (createInvoiceTotals items).discountAmount =
      (previewInvoiceTotals items).discountAmount ∧
    (createInvoiceTotals items).taxAmount = (previewInvoiceTotals items).taxAmount ∧
    (createInvoiceTotals items).total = (previewInvoiceTotals items).total :=
  ⟨rfl, by simp [createInvoiceTotals, previewInvoiceTotals, List.map_map]
           exact fun a _ => rfl,
    by simp only [createInvoiceTotals, previewInvoiceTotals, createSubtotal,
        previewSubtotal, foldl_add_eq_sum, List.map_map]; rfl,
    by simp only [createInvoiceTotals, previewInvoiceTotals, createTotalDiscount,
        previewTotalDiscount, foldl_add_eq_sum, List.map_map]; rfl,
    by simp only [createInvoiceTotals, previewInvoiceTotals, createTotalTax,
        previewTotalTax, foldl_add_eq_sum, List.map_map]; rfl,
    by simp only [createInvoiceTotals, previewInvoiceTotals, createSubtotal,
        previewSubtotal, createTotalDiscount, previewTotalDiscount, createTotalTax,
        previewTotalTax, foldl_add_eq_sum, List.map_map]; rfl⟩

/-- Claim C4: the totals computation is deterministic and idempotent —
recomputing totals on two identical lists of line items yields identical
per-item amounts and identical aggregates, as a two-run equality over the
embedded pure function. -/
theorem totalsDeterministic (items1 items2 : List LineItemInput)
    (h : items1 = items2) :
    (createInvoiceTotals items1).items.map CalculatedItem.amount =
      (createInvoiceTotals items2).items.map CalculatedItem.amount ∧
    createInvoiceTotals items1 = createInvoiceTotals items2 := by
  subst h
  exact ⟨rfl, rfl⟩

/-- Witness for claim C4 at a concrete pair of identical lists. -/
theorem totalsDeterministicWitness :
    ([⟨"a", 2, 100, 18, 0⟩] : List LineItemInput) = [⟨"a", 2, 100, 18, 0⟩] ∧
    ((createInvoiceTotals [⟨"a", 2, 100, 18, 0⟩]).items.map CalculatedItem.amount =
      (createInvoiceTotals [⟨"a", 2, 100, 18, 0⟩]).items.map CalculatedItem.amount ∧
    createInvoiceTotals [⟨"a", 2, 100, 18, 0⟩] =
      createInvoiceTotals [⟨"a", 2, 100, 18, 0⟩]) :=
  ⟨rfl, totalsDeterministic [⟨"a", 2, 100, 18, 0⟩] [⟨"a", 2, 100, 18, 0⟩] rfl⟩

/-- Claim C7: the totals computation reproduces the spec's worked examples:
a single item with quantity 2, rate 100, tax 18, discount 0 yields amount 236,
subtotal 200, discountAmount 0, taxAmount 36, total 236; a single item with
quantity 1, rate 1000, tax 0, discount 10 yields amount 900, subtotal 1000,
discountAmount 100, taxAmount 0, total 900. -/
theorem totalsWorkedExamples :
    createInvoiceTotals [⟨"item", 2, 100, 18, 0⟩] =
      { items := [⟨"item", 2, 100, 18, 0, 236⟩]
        subtotal := 200
        discountAmount := 0
        taxAmount := 36
        total := 236 } ∧
    createInvoiceTotals [⟨"item", 1, 1000, 0, 10⟩] =
      { items := [⟨"item", 1, 1000, 0, 10, 900⟩]
        subtotal := 1000
        discountAmount := 100
        taxAmount := 0
        total := 900 } := by
  constructor <;>
    · simp only [createInvoiceTotals, createSubtotal, createTotalDiscount, createTotalTax,
        createCalculatedItem, List.map_cons, List.map_nil, List.foldl_cons, List.foldl_nil,
        InvoiceTotals.mk.injEq, CalculatedItem.mk.injEq, List.cons.injEq]
      norm_num

/-- Claim C9: an invoice's invoiceNumber is immutable through the update path:
the update payload carries no invoiceNumber field and `updateInvoice` writes
only the fields present in its argument, so the stored invoiceNumber after the
update equals the one before. -/
theorem invoiceNumberImmutable (inv : Invoice) (u : UpdateInvoicePayload) :
    (applyUpdateInvoice inv u).invoiceNumber = inv.invoiceNumber :=
  rfl

/-- Claim C8 counterexample: the item with description "x", quantity 1/200
(that is 0.005), rate 0, tax rate 0 and discount rate 0 satisfies the claimed
acceptance condition (quantity > 0, rate ≥ 0, tax and discount rates within
[0,100]) yet is rejected by `invoiceItemSchemaAccepts`, whose quantity check
is `min(0.01)`. -/
theorem quantityThresholdCounterexample :
    ¬ (invoiceItemSchemaAccepts ⟨"x", 1 / 200, 0, 0, 0⟩ ↔
      (0 < (1 : ℚ) / 200 ∧ (0 : ℚ) ≤ 0 ∧
        ((0 : ℚ) ≤ 0 ∧ (0 : ℚ) ≤ 100) ∧ ((0 : ℚ) ≤ 0 ∧ (0 : ℚ) ≤ 100))) := by
  simp only [invoiceItemSchemaAccepts]
  norm_num

/-- Claim C8 as amended: an item with nonempty description is accepted by the
schema exactly when its quantity is at least 0.01, its rate is nonnegative,
and its tax and discount rates lie within [0,100]; positive quantities below
0.01 are rejected. -/
theorem itemValidationAmended (i : LineItemInput) (hd : i.description ≠ "") :
    invoiceItemSchemaAccepts i ↔
      (1 / 100 ≤ i.quantity ∧ 0 ≤ i.rate ∧ 0 ≤ i.taxRate ∧ i.taxRate ≤ 100 ∧
        0 ≤ i.discountRate ∧ i.discountRate ≤ 100) := by
  unfold invoiceItemSchemaAccepts
  tauto

/-- Witness for amended claim C8 at a concrete accepted item. -/
theorem itemValidationAmendedWitness :
    (("x" : String) ≠ "") ∧
    (invoiceItemSchemaAccepts ⟨"x", 1, 1, 0, 0⟩ ↔
      ((1 : ℚ) / 100 ≤ 1 ∧ (0 : ℚ) ≤ 1 ∧ (0 : ℚ) ≤ 0 ∧ (0 : ℚ) ≤ 100 ∧
        (0 : ℚ) ≤ 0 ∧ (0 : ℚ) ≤ 100)) :=
  ⟨by decide, itemValidationAmended ⟨"x", 1, 1, 0, 0⟩ (by decide)⟩

/-- Claim C5: with no prior invoice, getNextInvoiceNumber returns the
configured prefix concatenated with "0001"; the prefix defaults to "INV-"
when the invoice_prefix setting is absent, so with no prior invoices and
default settings it returns "INV-0001". -/
theorem firstInvoiceNumber :
    (∀ ps, getNextInvoiceNumber ps none = jsOrDefault ps "INV-" ++ "0001") ∧
    jsOrDefault none "INV-" = "INV-" ∧
    getNextInvoiceNumber none none = "INV-0001" :=
  ⟨fun _ => rfl, rfl, by decide⟩

/-- On a last invoice number of the form `p ++ ds` with nonempty digit suffix
`ds` and nonempty configured prefix `p`, the allocator strips the leading `p`,
parses `ds`, and pads the successor to 4 digits. -/
theorem getNextInvoiceNumberStrip (p ds : String) (hp : p ≠ "")
    (h1 : ds.data ≠ []) (h2 : ∀ c ∈ ds.data, c.isDigit) :
    getNextInvoiceNumber (some p) (some (p ++ ds)) =
      p ++ padStart (Nat.repr (digitsVal ds.data + 1)) 4 '0' := by
  have hrep : jsReplaceFirst (p ++ ds) p = ds := by
    unfold jsReplaceFirst
    rw [String.data_append, replaceFirstList_cancel]
  have hparse : jsParseInt ds = some (digitsVal ds.data) := by
    simp only [jsParseInt, List.takeWhile_eq_self_iff.mpr h2]
    simp [List.isEmpty_iff, h1]
  simp only [getNextInvoiceNumber, jsOrDefault, if_neg hp, hrep, hparse]

/-- Claim C6: when an invoice exists whose number is the configured prefix
followed by digits, getNextInvoiceNumber strips the prefix from the last
invoice number, parses the remaining digits, increments by 1, and re-pads to
4 digits with leading zeros; in particular "INV-0042" with prefix "INV-"
yields "INV-0043". -/
theorem nextInvoiceNumberIncrements (p ds : String) (hp : p ≠ "")
    (h1 : ds.data ≠ []) (h2 : ∀ c ∈ ds.data, c.isDigit) :
    getNextInvoiceNumber (some p) (some (p ++ ds)) =
      p ++ padStart (Nat.repr (digitsVal ds.data + 1)) 4 '0' :=
  getNextInvoiceNumberStrip p ds hp h1 h2

/-- Witness for claim C6: prefix "INV-" and last invoice number "INV-0042"
produce "INV-0043". -/
theorem nextInvoiceNumberIncrementsWitness :
    (("INV-" : String) ≠ "" ∧ ("0042" : String).data ≠ [] ∧
      (∀ c ∈ ("0042" : String).data, c.isDigit)) ∧
    getNextInvoiceNumber (some "INV-") (some ("INV-" ++ "0042")) =
      "INV-" ++ padStart (Nat.repr (digitsVal ("0042" : String).data + 1)) 4 '0' ∧
    "INV-" ++ padStart (Nat.repr (digitsVal ("0042" : String).data + 1)) 4 '0' =
      "INV-0043" :=
  ⟨⟨by decide, by decide, by decide⟩,
    nextInvoiceNumberIncrements "INV-" "0042" (by decide) (by decide) (by decide),
    by decide⟩

/-- `Nat.toDigitsCore` with positive fuel yields at least one more character
than the accumulator. -/
theorem toDigitsCore_length_succ :
    ∀ (fuel n : Nat) (l : List Char), 0 < fuel →
      l.length + 1 ≤ (Nat.toDigitsCore 10 fuel n l).length := by
  intro fuel
  induction fuel with
  | zero => intro n l h; exact absurd h (lt_irrefl 0)
  | succ f ih =>
    intro n l _
    simp only [Nat.toDigitsCore]
    split
    · simp
    · cases f with
      | zero => simp [Nat.toDigitsCore]
      | succ g =>
        have h := ih (n / 10) (Nat.digitChar (n % 10) :: l) (Nat.succ_pos g)
        simp only [List.length_cons] at h
        omega

/-- Lower bound on the output length of `Nat.toDigitsCore`: a number at least
`10 ^ k` contributes more than `k` characters beyond the accumulator. -/
theorem toDigitsCore_length_of_le :
    ∀ (k fuel n : Nat) (l : List Char), 10 ^ k ≤ n → n < fuel →
      k + 1 + l.length ≤ (Nat.toDigitsCore 10 fuel n l).length := by
  intro k
  induction k with
  | zero =>
    intro fuel n l hk hf
    have h1 : 0 < fuel := by omega
    have := toDigitsCore_length_succ fuel n l h1
    omega
  | succ k ih =>
    intro fuel n l hk hf
    have hkpos : 0 < 10 ^ k := pow_pos (by norm_num) k
    have hk1pos : 0 < 10 ^ (k + 1) := pow_pos (by norm_num) (k + 1)
    cases fuel with
    | zero => omega
    | succ f =>
      have hn10 : 10 ^ k ≤ n / 10 := by
        rw [Nat.le_div_iff_mul_le (by norm_num : 0 < 10)]
        calc 10 ^ k * 10 = 10 ^ (k + 1) := by rw [pow_succ]
          _ ≤ n := hk
      have hne : ¬ (n / 10 = 0) := by omega
      have hflt : n / 10 < f := by
        have hlt : n / 10 < n := Nat.div_lt_self (by omega) (by norm_num)
        omega
      simp only [Nat.toDigitsCore]
      rw [if_neg hne]
      have h := ih f (n / 10) (Nat.digitChar (n % 10) :: l) hn10 hflt
      simp only [List.length_cons] at h
      omega

/-- A number at least `10 ^ k` has a decimal representation longer than `k`
characters. -/
theorem repr_length_lower (k n : Nat) (h : 10 ^ k ≤ n) :
    k + 1 ≤ (Nat.repr n).length := by
  have h2 := toDigitsCore_length_of_le k (n + 1) n [] h (Nat.lt_succ_self n)
  simpa [Nat.repr, Nat.toDigits, List.asString, String.length] using h2

/-- Claim C10: for a last invoice number consisting of the prefix followed by
digits parsing to n with n + 1 > 9999, the allocator does not truncate or
wrap: padding to 4 digits leaves the longer string intact, so it returns the
prefix followed by the full decimal representation of n + 1, and the numeric
part remains strictly increasing past 9999. -/
theorem nextInvoiceNumberNoTruncation (p ds : String) (hp : p ≠ "")
    (h1 : ds.data ≠ []) (h2 : ∀ c ∈ ds.data, c.isDigit)
    (h3 : 9999 < digitsVal ds.data + 1) :
    getNextInvoiceNumber (some p) (some (p ++ ds)) =
      p ++ Nat.repr (digitsVal ds.data + 1) ∧
    digitsVal ds.data < digitsVal ds.data + 1 := by
  refine ⟨?_, Nat.lt_succ_self _⟩
  rw [getNextInvoiceNumberStrip p ds hp h1 h2]
  have h5 : 10 ^ 4 ≤ digitsVal ds.data + 1 := by norm_num; omega
  have h4 : 4 ≤ (Nat.repr (digitsVal ds.data + 1)).length := by
    have := repr_length_lower 4 (digitsVal ds.data + 1) h5
    omega
  simp [padStart, h4]

/-- Witness for claim C10: prefix "INV-" and last invoice number "INV-9999"
produce "INV-10000". -/
theorem nextInvoiceNumberNoTruncationWitness :
    (("INV-" : String) ≠ "" ∧ ("9999" : String).data ≠ [] ∧
      (∀ c ∈ ("9999" : String).data, c.isDigit) ∧
      9999 < digitsVal ("9999" : String).data + 1) ∧
    (getNextInvoiceNumber (some "INV-") (some ("INV-" ++ "9999")) =
      "INV-" ++ Nat.repr (digitsVal ("9999" : String).data + 1) ∧
    digitsVal ("9999" : String).data < digitsVal ("9999" : String).data + 1) ∧
    "INV-" ++ Nat.repr (digitsVal ("9999" : String).data + 1) = "INV-10000" :=
  ⟨⟨by decide, by decide, by decide, by decide⟩,
    nextInvoiceNumberNoTruncation "INV-" "9999" (by decide) (by decide) (by decide)
      (by decide),
    by decide⟩
